import Mathlib

/-!
Verification of the Fix Season Names reconciliation core
(src/fix_season_names.py and src/tmdb.py) against its design document.

Modelling conventions.
The Python code is shallowly embedded: pure helpers become Lean functions,
the stateful walk becomes explicit passing of an `Effects` record (filesystem,
printed log, issued HTTP requests), and raised/caught Python exceptions become
an `Except PyErr` result, with one `PyErr` constructor per exception class the
code can raise or catch.  The exception-class hierarchy that the `except`
clauses rely on is encoded by the predicates below (`requests` transport
errors subclass `OSError`; the XML parse error subclasses `SyntaxError` and
none of the caught classes).  XML files are modelled as either malformed or a
parsed element tree plus the parse-invisible bytes that `ElementTree` discards
on a parse/serialize round trip (the text before the root element, i.e. BOM
and XML declaration, and comment nodes).  Error-message texts are lightly
normalized (apostrophes and quote marks of the source messages are elided);
nothing proved below depends on message wording beyond distinguishing the
distinct messages of one exception class.
-/

deriving instance DecidableEq for Except

/-- Python exception values, one constructor per class that the program
raises or catches.  `httpError` is `requests.exceptions.HTTPError` and
`timeoutError` is `requests.exceptions.Timeout`; both subclass
`requests.exceptions.RequestException`, which subclasses `OSError`
(`IOError`).  `parseError` is `xml.etree.ElementTree.ParseError`, which
subclasses `SyntaxError` and therefore none of the classes the program
catches. -/
inductive PyErr where
  | osError (msg : String)
  | parseError (msg : String)
  | attributeError (msg : String)
  | keyError (msg : String)
  | valueError (msg : String)
  | runtimeError (msg : String)
  | httpError (msg : String)
  | timeoutError (msg : String)
deriving DecidableEq

/-- The message carried by an exception (`str(error)` in the reports). -/
def pyMsg : PyErr → String
  | .osError m => m
  | .parseError m => m
  | .attributeError m => m
  | .keyError m => m
  | .valueError m => m
  | .runtimeError m => m
  | .httpError m => m
  | .timeoutError m => m

/-- `isinstance(e, OSError)`: transport errors subclass `OSError`. -/
def isOSError : PyErr → Bool
  | .osError _ => true
  | .httpError _ => true
  | .timeoutError _ => true
  | _ => false

/-- `isinstance(e, requests.exceptions.HTTPError)`. -/
def isHttpError : PyErr → Bool
  | .httpError _ => true
  | _ => false

/-- `isinstance(e, RuntimeError)`. -/
def isRuntimeError : PyErr → Bool
  | .runtimeError _ => true
  | _ => false

/-- `isinstance(e, xml.etree.ElementTree.ParseError)`. -/
def isParseError : PyErr → Bool
  | .parseError _ => true
  | _ => false

/-- The season-loop handler `except (OSError, AttributeError, KeyError,
ValueError, RuntimeError)` at fix_season_names.py line 145. -/
def seasonCaught (e : PyErr) : Bool :=
  isOSError e ||
    (match e with
     | .attributeError _ => true
     | .keyError _ => true
     | .valueError _ => true
     | .runtimeError _ => true
     | _ => false)

/-- The show-loop handler `except (OSError, AttributeError, KeyError)` at
fix_season_names.py line 173. -/
def showCaught (e : PyErr) : Bool :=
  isOSError e ||
    (match e with
     | .attributeError _ => true
     | .keyError _ => true
     | _ => false)

/-- One child element of a document root: a tag and its optional text
(`None` for an empty element). -/
structure XmlElem where
  tag : String
  text : Option String
deriving DecidableEq

/-- A parsed element tree, as far as the program inspects it: the root tag
and the root's direct children (`./title`, `./seasonnumber`, ...). -/
structure XmlDoc where
  rootTag : String
  children : List XmlElem
deriving DecidableEq

/-- The content of one on-disk file.  A file is either not well-formed XML,
or it carries a parseable element tree `doc` together with the bytes that the
parser discards and the serializer does not reproduce: `prolog` (everything
before the root element: byte-order mark and XML declaration) and `comments`
(comment nodes, dropped by the default `ElementTree` parser). -/
inductive FileContent where
  | malformed (raw : String)
  | xml (prolog : String) (doc : XmlDoc) (comments : List String)
deriving DecidableEq

/-- The filesystem: which directories exist, which files exist, and each
file's content. -/
structure FS where
  dirs : List String
  files : List String
  content : String → FileContent

/-- `Path(p).is_dir()`. -/
def isDir (fs : FS) (p : String) : Bool := fs.dirs.contains p

/-- Character-list prefix test (UTF-8 string comparison). -/
def listLeads : List Char → List Char → Bool
  | [], _ => true
  | _ :: _, [] => false
  | a :: as, b :: bs => a == b && listLeads as bs

/-- `p` lies strictly inside directory `root` (paths are `/`-separated and
normalized, as `pathlib` yields them). -/
def underRoot (root p : String) : Bool :=
  listLeads (root ++ "/").toList p.toList

/-- Split a character list at `/` separators. -/
def splitSlash : List Char → List (List Char)
  | [] => [[]]
  | c :: rest =>
    let r := splitSlash rest
    if c == '/' then [] :: r
    else
      match r with
      | [] => [[c]]
      | h :: t => (c :: h) :: t

/-- The `/`-separated components of a path. -/
def pathComponents (s : String) : List String :=
  (splitSlash s.toList).map (fun cs => String.mk cs)

/-- `Path(p).name`: the final path component. -/
def baseName (p : String) : String := (pathComponents p).getLastD ""

/-- `Path(p).parent`: the path without its final component. -/
def parentDir (p : String) : String :=
  String.intercalate "/" (pathComponents p).dropLast

/-- `Path(root).rglob(pat)`: every existing file under `root` (at any depth)
whose name equals `pat`, in filesystem-walk order. -/
def rglob (fs : FS) (root pat : String) : List String :=
  fs.files.filter (fun p => underRoot root p && baseName p == pat)

/-- Lexicographic comparison of character lists by code point, the order in
which Python compares strings (and `pathlib` compares paths). -/
def charLe : List Char → List Char → Bool
  | [], _ => true
  | _ :: _, [] => false
  | x :: xs, y :: ys => if x = y then charLe xs ys else decide (x < y)

/-- String comparison as Python performs it on path strings. -/
def strLeB (a b : String) : Bool := charLe a.toList b.toList

/-- `sorted(...)` on a list of paths: `pathlib` orders paths by their full
string form, so this is a lexicographic string sort. -/
def sortedStrings (l : List String) : List String :=
  l.insertionSort (fun a b => strLeB a b = true)

/-- The error message of the invalid-root `IOError`
(fix_season_names.py lines 48 and 61). -/
def badRootMsg (p : String) : String :=
  "\"" ++ p ++ "\" does not exist or is not a directory"

/-- The `for path in paths` accumulation loop shared by `_find_tv_shows` and
`_find_seasons` (fix_season_names.py lines 42-66): check each root is a
directory, collect the sorted `rglob` matches, raise `IOError` on the first
bad root. -/
def findLoop (fs : FS) (pat : String) (acc : List String) :
    List String → Except PyErr (List String)
  | [] => .ok acc
  | path :: rest =>
    if isDir fs path then
      findLoop fs pat (acc ++ sortedStrings (rglob fs path pat)) rest
    else
      .error (.osError (badRootMsg path))

/-- `FixSeasonNames._find_tv_shows` (fix_season_names.py lines 42-53). -/
def _find_tv_shows (fs : FS) (paths : List String) : Except PyErr (List String) :=
  findLoop fs "tvshow.nfo" [] paths

/-- `FixSeasonNames._find_seasons` (fix_season_names.py lines 55-66). -/
def _find_seasons (fs : FS) (paths : List String) : Except PyErr (List String) :=
  findLoop fs "season.nfo" [] paths

/-- `node.find(path)` for the `"./tag"` paths the program uses: the first
direct child whose tag matches. -/
def findChild (node : XmlDoc) (path : String) : Option XmlElem :=
  node.children.find? (fun e => "./" ++ e.tag == path)

/-- `FixSeasonNames._get_xml_element_text` (fix_season_names.py lines 68-74):
absent element and empty text both read as no value. -/
def _get_xml_element_text (node : XmlDoc) (path : String) : Option String :=
  match findChild node path with
  | none => none
  | some element => if element.text == some "" then none else element.text

/-- Replace the text of the first child matching `path` (the mutation
`element.text = text` performed on the element `node.find(path)` returned). -/
def setFirstChild : List XmlElem → String → String → List XmlElem
  | [], _, _ => []
  | e :: rest, path, text =>
    if "./" ++ e.tag == path then { e with text := some text } :: rest
    else e :: setFirstChild rest path text

/-- `FixSeasonNames._set_xml_element_text` (fix_season_names.py lines 76-82):
`KeyError` when the tag is absent, otherwise mutate its text. -/
def _set_xml_element_text (node : XmlDoc) (path : String) (text : String) :
    Except PyErr XmlDoc :=
  match findChild node path with
  | none => .error (.keyError ("No such tag " ++ path))
  | some _ => .ok { node with children := setFirstChild node.children path text }

/-- `ET.parse(p)`: `OSError` if the file does not exist, `ParseError` if it
is not well-formed XML, otherwise the element tree (prolog and comments are
discarded by the parser). -/
def parseFile (fs : FS) (p : String) : Except PyErr XmlDoc :=
  if fs.files.contains p then
    match fs.content p with
    | .malformed _ => .error (.parseError "syntax error")
    | .xml _ d _ => .ok d
  else
    .error (.osError ("No such file or directory: " ++ p))

/-- The fixed text written before the document body on every rewrite
(fix_season_names.py line 115): byte-order mark plus XML declaration. -/
def XML_PROLOG : String :=
  "\uFEFF<?xml version=\"1.0\" encoding=\"utf-8\" standalone=\"yes\"?>\n"

/-- Decimal digits to a number; `none` if empty or any char is not a digit. -/
def digitsToNat : List Char → Option Nat
  | [] => none
  | cs =>
      cs.foldl
        (fun acc c =>
          match acc with
          | none => none
          | some n => if c.isDigit then some (n * 10 + (c.toNat - 48)) else none)
        (some 0)

/-- ASCII whitespace stripped by Python's `int` conversion. -/
def isSpaceChar (c : Char) : Bool :=
  c = ' ' || c = '\t' || c = '\n' || c = '\r' || c = '\x0b' || c = '\x0c'

/-- `s.strip()` on the character list of a string. -/
def pyStrip (cs : List Char) : List Char :=
  ((cs.dropWhile isSpaceChar).reverse.dropWhile isSpaceChar).reverse

/-- Digits (after the optional sign) to the signed result of `int(s)`;
`ValueError` when no valid digit string remains. -/
def pyIntCore (sign : Int) (digits : List Char) (orig : String) : Except PyErr Int :=
  match digitsToNat digits with
  | some n => .ok (sign * n)
  | none => .error (.valueError ("invalid literal for int with base 10: " ++ orig))

/-- Python's `int(s)` on a string: strip surrounding whitespace, optional
sign, then decimal digits; `ValueError` otherwise.  (Digit-group underscores
and non-ASCII digits, which CPython also accepts, are not modelled; no input
below uses them.) -/
def pyInt (s : String) : Except PyErr Int :=
  match pyStrip s.toList with
  | '+' :: rest => pyIntCore 1 rest s
  | '-' :: rest => pyIntCore (-1) rest s
  | cs => pyIntCore 1 cs s

/-- A JSON response body, restricted to the two fields the program reads:
the `success` flag of the authentication endpoint (`none` when the key is
absent) and the `name` field of the season-details endpoint. -/
structure JsonObj where
  success : Option Bool
  name : Option String
deriving DecidableEq

/-- One HTTPS GET request as `requests.get(url, timeout=5, headers=...)`
issues it: the URL, the bearer token in the authorization header, and the
timeout argument. -/
structure HttpRequest where
  url : String
  bearer : String
  timeoutSecs : Nat
deriving DecidableEq

/-- What the network does with one request: a JSON body after a 2xx status,
an HTTP error status (`raise_for_status` raises `HTTPError`), or a timeout
(`requests.exceptions.Timeout`). -/
inductive HttpResult where
  | ok (body : JsonObj)
  | httpError (msg : String)
  | timeout
deriving DecidableEq

/-- The observable state threaded through a run: the filesystem, the lines
printed so far, and the HTTP requests issued so far. -/
structure Effects where
  fs : FS
  log : List String
  requests : List HttpRequest

/-- `print(line)`. -/
def logLine (w : Effects) (line : String) : Effects :=
  { w with log := w.log ++ [line] }

/-- `open(p, "w") ... write`: (over)write file `p` with content `c`. -/
def writeFile (w : Effects) (p : String) (c : FileContent) : Effects :=
  { w with
    fs := { w.fs with
            files := if w.fs.files.contains p then w.fs.files else w.fs.files ++ [p]
            content := fun q => if q = p then c else w.fs.content q } }

/-- The run configuration plus the external world's response behaviour:
the bearer token, dry-run flag and root paths stored by
`FixSeasonNames.__init__`, and the network as a function from request to
result. -/
structure Ctx where
  bearer : String
  dry_run : Bool
  paths : List String
  transport : HttpRequest → HttpResult

/-- `timeout=5` at tmdb.py line 54. -/
def REQUEST_TIMEOUT : Nat := 5

/-- The URL built by `TMDB._query` (tmdb.py lines 39-47). -/
def buildUrl (endpoint : String) (path_params : List String)
    (query_params : List (String × String)) : String :=
  let path_params_str :=
    if path_params.isEmpty then "" else "/" ++ String.intercalate "/" path_params
  let query_params_str :=
    if query_params.isEmpty then ""
    else "?" ++ String.intercalate "&" (query_params.map (fun kv => kv.1 ++ "=" ++ kv.2))
  "https://api.themoviedb.org/3/" ++ endpoint ++ path_params_str ++ query_params_str

/-- The request `TMDB._query` issues: the built URL, the stored bearer
token, and the fixed five-second timeout. -/
def buildRequest (bearer endpoint : String) (path_params : List String)
    (query_params : List (String × String)) : HttpRequest :=
  { url := buildUrl endpoint path_params query_params
    bearer := bearer
    timeoutSecs := REQUEST_TIMEOUT }

/-- `TMDB._query` (tmdb.py lines 36-57): build the URL, issue the GET, raise
`HTTPError` on an error status (`raise_for_status`), `Timeout` on a timeout,
otherwise return the JSON body. -/
def _query (ctx : Ctx) (endpoint : String) (path_params : List String)
    (query_params : List (String × String)) (w : Effects) :
    Effects × Except PyErr JsonObj :=
  let req := buildRequest ctx.bearer endpoint path_params query_params
  let w := { w with requests := w.requests ++ [req] }
  match ctx.transport req with
  | .ok body => (w, .ok body)
  | .httpError m => (w, .error (.httpError m))
  | .timeout => (w, .error (.timeoutError "Request timed out"))

/-- The request of the one-shot authentication check. -/
def authRequest (bearer : String) : HttpRequest :=
  buildRequest bearer "authentication" [] []

/-- `TMDB._try_auth` (tmdb.py lines 59-69): query the authentication
endpoint; a missing or falsy `success` value raises `RuntimeError`; the
`except (HTTPError, RuntimeError)` clause wraps those two classes in the
fatal authentication `RuntimeError`; anything else (in particular a
`Timeout`) propagates unwrapped. -/
def _try_auth (ctx : Ctx) (w : Effects) : Effects × Except PyErr Unit :=
  let w := logLine w "Trying to authenticate with TMDB..."
  match _query ctx "authentication" [] [] w with
  | (w, .ok response) =>
    match response.success with
    | none => (w, .error (.runtimeError
        ("Failed to authenticate with TMDB: " ++ "Response has no success value")))
    | some false => (w, .error (.runtimeError
        ("Failed to authenticate with TMDB: " ++ "Response yielded no success")))
    | some true => (w, .ok ())
  | (w, .error e) =>
    if isHttpError e || isRuntimeError e then
      (w, .error (.runtimeError ("Failed to authenticate with TMDB: " ++ pyMsg e)))
    else (w, .error e)

/-- `TMDB.__init__` (tmdb.py lines 32-34): store the bearer and immediately
run the authentication check, propagating its failure. -/
def TMDB_new (ctx : Ctx) (w : Effects) : Effects × Except PyErr Unit :=
  _try_auth ctx w

/-- The `language` query parameter dict built by `get_tv_series_season`
(tmdb.py lines 83-85). -/
def languageParams : Option String → List (String × String)
  | none => []
  | some l => [("language", l)]

/-- The request issued for one season lookup. -/
def seasonRequest (ctx : Ctx) (series_id season_number : Int)
    (language : Option String) : HttpRequest :=
  buildRequest ctx.bearer "tv" [toString series_id, "season", toString season_number]
    (languageParams language)

/-- `TMDB.get_tv_series_season` (tmdb.py lines 71-92): query the
series/season path; the `except HTTPError` clause wraps an HTTP error status
in the lookup `RuntimeError`; anything else (in particular a `Timeout`)
propagates unwrapped. -/
def get_tv_series_season (ctx : Ctx) (series_id season_number : Int)
    (language : Option String) (w : Effects) : Effects × Except PyErr JsonObj :=
  match _query ctx "tv" [toString series_id, "season", toString season_number]
      (languageParams language) w with
  | (w, .ok response) => (w, .ok response)
  | (w, .error e) =>
    if isHttpError e then
      (w, .error (.runtimeError ("Failed to get season: " ++ pyMsg e)))
    else (w, .error e)

/-- Message of the season root-tag `AttributeError`
(fix_season_names.py line 89). -/
def SEASON_SHAPE_MSG : String := "The file does not describe a season"

/-- Message of the missing-season-fields `KeyError`
(fix_season_names.py line 95). -/
def SEASON_FIELDS_MSG : String := "Season has no title or season number"

/-- Message of the show root-tag `AttributeError`
(fix_season_names.py line 123). -/
def SHOW_SHAPE_MSG : String := "This file does not describe a TV show"

/-- Message of the missing-show-fields `KeyError`
(fix_season_names.py line 134). -/
def SHOW_FIELDS_MSG : String := "TV Show has no title, year or TMDB ID"

/-- Message of the no-seasons `AttributeError`
(fix_season_names.py line 140). -/
def NO_SEASONS_MSG : String := "This show does not have any seasons"

/-- `FixSeasonNames._fix_season` (fix_season_names.py lines 84-116): parse
the season file, check the root tag, read title and season number, look the
season up on TMDB, and either report the title as already correct, report
the intended fix (dry run), or write the title back and persist the file
with the fixed prolog. -/
def _fix_season (ctx : Ctx) (show_id : Int) (language : String) (season : String)
    (w : Effects) : Effects × Except PyErr Unit :=
  match parseFile w.fs season with
  | .error e => (w, .error e)
  | .ok season_root =>
    if season_root.rootTag ≠ "season" then
      (w, .error (.attributeError SEASON_SHAPE_MSG))
    else
      match _get_xml_element_text season_root "./title",
            _get_xml_element_text season_root "./seasonnumber" with
      | some old_title, some season_number =>
        (match pyInt season_number with
         | .error e => (w, .error e)
         | .ok n =>
           match get_tv_series_season ctx show_id n (some language) w with
           | (w, .error e) => (w, .error e)
           | (w, .ok season_details) =>
             match season_details.name with
             | none => (w, .error (.keyError "name"))
             | some new_title =>
               if old_title = new_title then
                 (logLine w ("Season " ++ season_number ++
                    " already has the correct title " ++ new_title), .ok ())
               else
                 let w := logLine w ("Fixing season " ++ season_number ++ " from " ++
                    old_title ++ " to " ++ new_title ++
                    (if ctx.dry_run then " (DRY RUN)" else ""))
                 if ctx.dry_run then (w, .ok ())
                 else
                   match _set_xml_element_text season_root "./title" new_title with
                   | .error e => (w, .error e)
                   | .ok new_root =>
                     (writeFile w season (FileContent.xml XML_PROLOG new_root []),
                      .ok ()))
      | _, _ => (w, .error (.keyError SEASON_FIELDS_MSG))

/-- The body of one season-loop iteration before its `except` clause
(fix_season_names.py line 144): `int(tmdbid)` is evaluated inside the
`try`, then `_fix_season` is called. -/
def seasonStep (ctx : Ctx) (tmdbid language season : String) (w : Effects) :
    Effects × Except PyErr Unit :=
  match pyInt tmdbid with
  | .error e => (w, .error e)
  | .ok show_id => _fix_season ctx show_id language season w

/-- The per-season skip report
(`f"Skipping {season.parent.name}: {error}"`, line 146). -/
def skipSeasonLine (season : String) (e : PyErr) : String :=
  "Skipping " ++ baseName (parentDir season) ++ ": " ++ pyMsg e

/-- The `for season in seasons` loop with its `except (OSError,
AttributeError, KeyError, ValueError, RuntimeError)` handler
(fix_season_names.py lines 142-146): a caught error is reported with the
season's directory name and the loop continues; any other exception
propagates. -/
def seasonLoop (ctx : Ctx) (tmdbid language : String) :
    List String → Effects → Effects × Except PyErr Unit
  | [], w => (w, .ok ())
  | season :: rest, w =>
    match seasonStep ctx tmdbid language season w with
    | (w', .ok _) => seasonLoop ctx tmdbid language rest w'
    | (w', .error e) =>
      if seasonCaught e then
        seasonLoop ctx tmdbid language rest (logLine w' (skipSeasonLine season e))
      else (w', .error e)

/-- The show banner line (`f"{title} ({year}) [{tmdbid}] {{{language}}}"`,
fix_season_names.py line 136). -/
def showBanner (title year tmdbid language : String) : String :=
  title ++ " (" ++ year ++ ") [" ++ tmdbid ++ "] \x7b" ++ language ++ "\x7d"

/-- `FixSeasonNames._fix_show` (fix_season_names.py lines 118-146): parse the
show file, check the root tag, read title/year/tmdbid (language defaulting
to "en"), print the banner, discover this show's seasons under the show
file's parent directory, fail if there are none, then run the season loop. -/
def _fix_show (ctx : Ctx) (showPath : String) (w : Effects) :
    Effects × Except PyErr Unit :=
  match parseFile w.fs showPath with
  | .error e => (w, .error e)
  | .ok show_root =>
    if show_root.rootTag ≠ "tvshow" then
      (w, .error (.attributeError SHOW_SHAPE_MSG))
    else
      match _get_xml_element_text show_root "./title",
            _get_xml_element_text show_root "./year",
            _get_xml_element_text show_root "./tmdbid" with
      | some title, some year, some tmdbid =>
        let language := (_get_xml_element_text show_root "./language").getD "en"
        let w := logLine w (showBanner title year tmdbid language)
        match _find_seasons w.fs [parentDir showPath] with
        | .error e => (w, .error e)
        | .ok seasons =>
          if seasons.isEmpty then (w, .error (.attributeError NO_SEASONS_MSG))
          else seasonLoop ctx tmdbid language seasons w
      | _, _, _ => (w, .error (.keyError SHOW_FIELDS_MSG))

/-- The three header lines printed before each show is attempted
(fix_season_names.py lines 167-169). -/
def showHeader (total index : Nat) (showPath : String) (w : Effects) : Effects :=
  logLine (logLine (logLine w "") "---")
    (toString index ++ "/" ++ toString total ++ ": " ++ showPath ++ ":")

/-- The `for show_index, show in enumerate(shows, start=1)` loop with its
`except (OSError, AttributeError, KeyError)` handler (fix_season_names.py
lines 166-174): print the header, attempt the show, report and continue on a
caught error, propagate anything else. -/
def showLoop (ctx : Ctx) (total : Nat) :
    Nat → List String → Effects → Effects × Except PyErr Unit
  | _, [], w => (w, .ok ())
  | index, showPath :: rest, w =>
    let w := showHeader total index showPath w
    match _fix_show ctx showPath w with
    | (w', .ok _) => showLoop ctx total (index + 1) rest w'
    | (w', .error e) =>
      if showCaught e then
        showLoop ctx total (index + 1) rest
          (logLine w' ("Skipping: " ++ pyMsg e))
      else (w', .error e)

/-- `FixSeasonNames.run` (fix_season_names.py lines 148-174): discover the
shows (an `IOError` is reported as fatal and ends the run), stop normally
when none are found, construct the TMDB client (whose failure propagates),
then walk the shows.  The second component is `.ok ()` when the process
returns normally and `.error e` when an uncaught exception terminates it. -/
def run (ctx : Ctx) (fs : FS) : Effects × Except PyErr Unit :=
  let w : Effects := { fs := fs, log := [], requests := [] }
  match _find_tv_shows fs ctx.paths with
  | .error e =>
    if isOSError e then (logLine w ("Error: " ++ pyMsg e), .ok ())
    else (w, .error e)
  | .ok shows =>
    if shows.isEmpty then (logLine w "No TV shows found!", .ok ())
    else
      let w := logLine w ("Found " ++ toString shows.length ++ " TV show(s)")
      match TMDB_new ctx w with
      | (w', .error e) => (w', .error e)
      | (w', .ok _) => showLoop ctx shows.length 1 shows w'

/-- What the spec's byte-for-byte frame condition would require of a rewrite:
only the title field's text changes, every other byte of the file (prolog,
comments, all other fields) stays as it was.  Stated from the spec's words,
to be compared with what `_fix_season` actually writes. -/
def specReplaceTitleText : FileContent → String → FileContent
  | .malformed raw, _ => .malformed raw
  | .xml prolog d comments, t =>
    .xml prolog { d with children := setFirstChild d.children "./title" t } comments

theorem seasonCaught_eq_not_isParse (e : PyErr) : seasonCaught e = !isParseError e := by
  cases e <;> rfl

theorem uncaught_season_isParse {e : PyErr} (h : seasonCaught e = false) :
    isParseError e = true := by
  cases e <;> simp_all [seasonCaught, isOSError, isParseError]

theorem seasonLoop_error_isParse (ctx : Ctx) (tmdbid language : String) :
    ∀ (seasons : List String) (w w' : Effects) (e : PyErr),
      seasonLoop ctx tmdbid language seasons w = (w', .error e) →
      isParseError e = true := by
  intro seasons
  induction seasons with
  | nil => intro w w' e h; simp [seasonLoop] at h
  | cons s rest ih =>
    intro w w' e h
    unfold seasonLoop at h
    split at h
    · exact ih _ _ _ h
    · split at h
      · exact ih _ _ _ h
      · next hc =>
          cases h
          exact uncaught_season_isParse (Bool.not_eq_true _ ▸ hc)

theorem findLoop_error (fs : FS) (pat : String) :
    ∀ (paths : List String) (acc : List String) (e : PyErr),
      findLoop fs pat acc paths = .error e →
      ∃ p, p ∈ paths ∧ isDir fs p = false ∧ e = .osError (badRootMsg p) := by
  intro paths
  induction paths with
  | nil => intro acc e h; simp [findLoop] at h
  | cons p rest ih =>
    intro acc e h
    unfold findLoop at h
    by_cases hd : isDir fs p = true
    · rw [if_pos hd] at h
      rcases ih _ _ h with ⟨q, hq, hq2, hq3⟩
      exact ⟨q, List.mem_cons_of_mem _ hq, hq2, hq3⟩
    · rw [if_neg hd] at h
      cases h
      exact ⟨p, List.mem_cons_self _ _, Bool.not_eq_true _ ▸ hd, rfl⟩

theorem findLoop_first_bad (fs : FS) (pat : String) :
    ∀ (paths : List String) (acc : List String),
      (∃ p, p ∈ paths ∧ isDir fs p = false) →
      ∃ bad, bad ∈ paths ∧ isDir fs bad = false ∧
        findLoop fs pat acc paths = .error (.osError (badRootMsg bad)) := by
  intro paths
  induction paths with
  | nil => rintro acc ⟨p, hp, _⟩; cases hp
  | cons p rest ih =>
    rintro acc ⟨q, hq, hbad⟩
    by_cases hd : isDir fs p = true
    · have hqrest : q ∈ rest := by
        rcases List.mem_cons.mp hq with h | h
        · rw [h] at hbad; rw [hbad] at hd; cases hd
        · exact h
      rcases ih (acc ++ sortedStrings (rglob fs p pat)) ⟨q, hqrest, hbad⟩ with
        ⟨bad, hmem, hbad2, heq⟩
      refine ⟨bad, List.mem_cons_of_mem _ hmem, hbad2, ?_⟩
      unfold findLoop
      rw [if_pos hd]
      exact heq
    · refine ⟨p, List.mem_cons_self _ _, Bool.not_eq_true _ ▸ hd, ?_⟩
      unfold findLoop
      rw [if_neg hd]

theorem findLoop_all_dirs (fs : FS) (pat : String) :
    ∀ (paths : List String) (acc : List String),
      (∀ p ∈ paths, isDir fs p = true) →
      findLoop fs pat acc paths =
        .ok (acc ++ paths.flatMap (fun r => sortedStrings (rglob fs r pat))) := by
  intro paths
  induction paths with
  | nil => intro acc _; simp [findLoop]
  | cons p rest ih =>
    intro acc h
    unfold findLoop
    rw [if_pos (h p (List.mem_cons_self _ _))]
    rw [ih _ (fun q hq => h q (List.mem_cons_of_mem _ hq))]
    simp [List.flatMap_cons, List.append_assoc]

theorem charLe_iff_not_lex : ∀ a b : List Char, charLe a b = true ↔ ¬ List.Lex (· < ·) b a := by
  intro a
  induction a with
  | nil =>
    intro b
    exact iff_of_true rfl (List.Lex.not_nil_right _ _)
  | cons x xs ih =>
    intro b
    cases b with
    | nil =>
      refine iff_of_false (by simp [charLe]) ?_
      intro hn
      exact hn List.Lex.nil
    | cons y ys =>
      simp only [charLe]
      by_cases hxy : x = y
      · subst hxy
        rw [if_pos rfl]
        rw [ih ys]
        exact (not_congr List.Lex.cons_iff).symm
      · rw [if_neg hxy]
        simp only [decide_eq_true_eq]
        constructor
        · intro hlt hlex
          cases hlex with
          | cons h => exact hxy rfl
          | rel h => exact absurd hlt (asymm h)
        · intro h
          rcases lt_trichotomy x y with hl | he | hg
          · exact hl
          · exact absurd he hxy
          · exact absurd (List.Lex.rel hg) h

theorem strLeB_iff (a b : String) : strLeB a b = true ↔ a ≤ b := by
  rw [← not_lt, String.lt_iff_toList_lt]
  exact charLe_iff_not_lex a.toList b.toList

theorem sortedStrings_sorted (l : List String) :
    List.Sorted (· ≤ ·) (sortedStrings l) := by
  haveI : IsTotal String (fun a b : String => strLeB a b = true) :=
    ⟨fun a b => by simp only [strLeB_iff]; exact le_total a b⟩
  haveI : IsTrans String (fun a b : String => strLeB a b = true) :=
    ⟨fun a b c hab hbc => by
      rw [strLeB_iff] at hab hbc ⊢
      exact le_trans hab hbc⟩
  have h := List.sorted_insertionSort (fun a b : String => strLeB a b = true) l
  exact h.imp (fun hr => (strLeB_iff _ _).mp hr)

theorem sortedStrings_perm (l : List String) : (sortedStrings l).Perm l :=
  List.perm_insertionSort _ l

theorem query_requests (ctx : Ctx) (ep : String) (pp : List String)
    (qp : List (String × String)) (w : Effects) :
    (_query ctx ep pp qp w).1.requests = w.requests ++ [buildRequest ctx.bearer ep pp qp] := by
  unfold _query
  dsimp only
  split <;> rfl

theorem gtss_requests (ctx : Ctx) (sid n : Int) (lang : Option String) (w : Effects) :
    (get_tv_series_season ctx sid n lang w).1.requests =
      w.requests ++ [seasonRequest ctx sid n lang] := by
  unfold get_tv_series_season seasonRequest
  have hq := query_requests ctx "tv" [toString sid, "season", toString n]
    (languageParams lang) w
  split
  · next w1 r heq =>
    rw [heq] at hq
    exact hq
  · next w1 e heq =>
    rw [heq] at hq
    split <;> exact hq

theorem fix_season_requests (ctx : Ctx) (sid : Int) (lang season : String) (w : Effects) :
    ∃ t, (_fix_season ctx sid lang season w).1.requests = w.requests ++ t := by
  unfold _fix_season
  split
  · exact ⟨[], by simp⟩
  · split
    · exact ⟨[], by simp⟩
    · split
      · split
        · exact ⟨[], by simp⟩
        · next n hn =>
          split
          · next w1 e heq =>
            have hq := gtss_requests ctx sid n (some lang) w
            rw [heq] at hq
            exact ⟨_, hq⟩
          · next w1 sd heq =>
            have hq := gtss_requests ctx sid n (some lang) w
            rw [heq] at hq
            split
            · exact ⟨_, hq⟩
            · next new_title =>
              split
              · exact ⟨_, hq⟩
              · split
                · exact ⟨_, hq⟩
                · split
                  · exact ⟨_, hq⟩
                  · exact ⟨_, hq⟩
      · exact ⟨[], by simp⟩

theorem seasonStep_requests (ctx : Ctx) (tmdbid lang season : String) (w : Effects) :
    ∃ t, (seasonStep ctx tmdbid lang season w).1.requests = w.requests ++ t := by
  unfold seasonStep
  split
  · exact ⟨[], by simp⟩
  · exact fix_season_requests ctx _ lang season w

theorem seasonLoop_requests (ctx : Ctx) (tmdbid lang : String) :
    ∀ (seasons : List String) (w : Effects),
      ∃ t, (seasonLoop ctx tmdbid lang seasons w).1.requests = w.requests ++ t := by
  intro seasons
  induction seasons with
  | nil => intro w; exact ⟨[], by simp [seasonLoop]⟩
  | cons s rest ih =>
    intro w
    have hs := seasonStep_requests ctx tmdbid lang s w
    unfold seasonLoop
    split
    · next w1 a heq =>
      rw [heq] at hs
      rcases hs with ⟨t1, ht1⟩
      rcases ih w1 with ⟨t2, ht2⟩
      exact ⟨t1 ++ t2, by rw [ht2]; show w1.requests ++ t2 = _; rw [ht1, List.append_assoc]⟩
    · next w1 e heq =>
      rw [heq] at hs
      rcases hs with ⟨t1, ht1⟩
      split
      · rcases ih (logLine w1 (skipSeasonLine s e)) with ⟨t2, ht2⟩
        refine ⟨t1 ++ t2, ?_⟩
        rw [ht2]
        show w1.requests ++ t2 = _
        rw [ht1, List.append_assoc]
      · exact ⟨t1, ht1⟩

theorem fix_show_requests (ctx : Ctx) (showPath : String) (w : Effects) :
    ∃ t, (_fix_show ctx showPath w).1.requests = w.requests ++ t := by
  unfold _fix_show
  split
  · exact ⟨[], by simp⟩
  · split
    · exact ⟨[], by simp⟩
    · split
      · dsimp only
        split
        · exact ⟨[], by simp [logLine]⟩
        · next seasons _ =>
          split
          · exact ⟨[], by simp [logLine]⟩
          · exact seasonLoop_requests ctx _ _ seasons _
      · exact ⟨[], by simp⟩

theorem showLoop_requests (ctx : Ctx) (total : Nat) :
    ∀ (shows : List String) (index : Nat) (w : Effects),
      ∃ t, (showLoop ctx total index shows w).1.requests = w.requests ++ t := by
  intro shows
  induction shows with
  | nil => intro index w; exact ⟨[], by simp [showLoop]⟩
  | cons p rest ih =>
    intro index w
    have hs := fix_show_requests ctx p (showHeader total index p w)
    have hhdr : (showHeader total index p w).requests = w.requests := rfl
    rw [hhdr] at hs
    unfold showLoop
    dsimp only
    split
    · next w1 a heq =>
      rw [heq] at hs
      rcases hs with ⟨t1, ht1⟩
      rcases ih (index + 1) w1 with ⟨t2, ht2⟩
      exact ⟨t1 ++ t2, by rw [ht2]; show w1.requests ++ t2 = _; rw [ht1, List.append_assoc]⟩
    · next w1 e heq =>
      rw [heq] at hs
      rcases hs with ⟨t1, ht1⟩
      split
      · rcases ih (index + 1) (logLine w1 ("Skipping: " ++ pyMsg e)) with ⟨t2, ht2⟩
        refine ⟨t1 ++ t2, ?_⟩
        rw [ht2]
        show w1.requests ++ t2 = _
        rw [ht1, List.append_assoc]
      · exact ⟨t1, ht1⟩

theorem parseFile_error {fs : FS} {p : String} {e : PyErr}
    (h : parseFile fs p = .error e) :
    (∃ m, e = .osError m) ∨ (∃ m, e = .parseError m) := by
  unfold parseFile at h
  split at h
  · split at h
    · cases h
      exact .inr ⟨_, rfl⟩
    · cases h
  · cases h
    exact .inl ⟨_, rfl⟩

theorem isParse_eq_parseError {e : PyErr} (h : isParseError e = true) :
    ∃ m, e = .parseError m := by
  cases e <;> simp_all [isParseError]

theorem fix_show_error_cases (ctx : Ctx) (p : String) (w w' : Effects) (e : PyErr)
    (h : _fix_show ctx p w = (w', .error e)) :
    (∃ m, e = .osError m) ∨ (∃ m, e = .parseError m) ∨
      e = .attributeError SHOW_SHAPE_MSG ∨ e = .keyError SHOW_FIELDS_MSG ∨
      e = .attributeError NO_SEASONS_MSG := by
  unfold _fix_show at h
  split at h
  · next e1 heq =>
    cases h
    rcases parseFile_error heq with h1 | h1
    · exact .inl h1
    · exact .inr (.inl h1)
  · split at h
    · cases h
      exact .inr (.inr (.inl rfl))
    · split at h
      · dsimp only at h
        split at h
        · cases h
          rcases findLoop_error _ _ _ _ _ ‹_› with ⟨q, _, _, hq⟩
          exact .inl ⟨_, hq⟩
        · split at h
          · cases h
            exact .inr (.inr (.inr (.inr rfl)))
          · rcases isParse_eq_parseError
              (seasonLoop_error_isParse _ _ _ _ _ _ _ h) with ⟨m, hm⟩
            exact .inr (.inl ⟨m, hm⟩)
      · cases h
        exact .inr (.inr (.inr (.inl rfl)))

theorem fix_show_uncaught_isParse (ctx : Ctx) (p : String) (w w' : Effects) (e : PyErr)
    (h : _fix_show ctx p w = (w', .error e)) (hnc : showCaught e = false) :
    isParseError e = true := by
  rcases fix_show_error_cases ctx p w w' e h with ⟨m, hm⟩ | ⟨m, hm⟩ | hm | hm | hm <;>
    subst hm <;> simp_all [showCaught, isOSError, isParseError]

theorem fix_show_shape_error_root (ctx : Ctx) (p : String) (w w' : Effects)
    (d : XmlDoc) (hp : parseFile w.fs p = .ok d)
    (h : _fix_show ctx p w = (w', .error (.attributeError SHOW_SHAPE_MSG))) :
    d.rootTag ≠ "tvshow" := by
  intro hroot
  unfold _fix_show at h
  simp only [hp, hroot] at h
  rw [if_neg (by simp)] at h
  split at h
  · split at h
    · next heq =>
      cases h
      rcases findLoop_error _ _ _ _ _ heq with ⟨q, _, _, hq⟩
      exact PyErr.noConfusion hq
    · split at h
      · simp [Prod.ext_iff, NO_SEASONS_MSG, SHOW_SHAPE_MSG] at h
      · have := seasonLoop_error_isParse _ _ _ _ _ _ _ h
        simp [isParseError] at this
  · simp [Prod.ext_iff, SHOW_FIELDS_MSG, SHOW_SHAPE_MSG] at h

theorem setFirstChild_tag (path t : String) :
    ∀ (l : List XmlElem) (k : Nat),
      ((setFirstChild l path t).get? k).map XmlElem.tag = (l.get? k).map XmlElem.tag := by
  intro l
  induction l with
  | nil => intro k; rfl
  | cons e rest ih =>
    intro k
    unfold setFirstChild
    split
    · cases k <;> rfl
    · cases k with
      | zero => rfl
      | succ k => exact ih k

theorem setFirstChild_nomatch (path t : String) :
    ∀ (l : List XmlElem) (k : Nat) (e : XmlElem),
      l.get? k = some e → ("./" ++ e.tag == path) = false →
      (setFirstChild l path t).get? k = some e := by
  intro l
  induction l with
  | nil => intro k e h; cases k <;> cases h
  | cons e0 rest ih =>
    intro k e h hne
    unfold setFirstChild
    split
    · next hm =>
      cases k with
      | zero =>
        cases h
        rw [hm] at hne
        cases hne
      | succ k => exact h
    · cases k with
      | zero => exact h
      | succ k => exact ih k e h hne

theorem find?_setFirstChild_ne (path path' t : String) (hne : path' ≠ path) :
    ∀ l : List XmlElem,
      (setFirstChild l path t).find? (fun e => "./" ++ e.tag == path') =
        l.find? (fun e => "./" ++ e.tag == path') := by
  intro l
  induction l with
  | nil => rfl
  | cons e rest ih =>
    unfold setFirstChild
    split
    · next hm =>
      have hm' : "./" ++ e.tag = path := eq_of_beq hm
      have hpred : ("./" ++ e.tag == path') = false := by
        rw [hm']
        exact beq_false_of_ne (fun hc => hne hc.symm)
      rw [List.find?_cons, List.find?_cons]
      show (match ("./" ++ e.tag == path' : Bool) with
            | true => some { e with text := some t } | false => rest.find? _) = _
      rw [hpred]
    · rw [List.find?_cons, List.find?_cons]
      cases hp : ("./" ++ e.tag == path' : Bool)
      · exact ih
      · rfl

theorem find?_setFirstChild_self (path t : String) :
    ∀ (l : List XmlElem) (e0 : XmlElem),
      l.find? (fun e => "./" ++ e.tag == path) = some e0 →
      (setFirstChild l path t).find? (fun e => "./" ++ e.tag == path) =
        some { e0 with text := some t } := by
  intro l
  induction l with
  | nil => intro e0 h; cases h
  | cons e rest ih =>
    intro e0 h
    rw [List.find?_cons] at h
    unfold setFirstChild
    split
    · next hm =>
      rw [hm] at h
      cases h
      simp only [List.find?_cons]
      have hm2 : ("./" ++ XmlElem.tag { e with text := some t } == path) = true := hm
      rw [hm2]
    · next hm =>
      have hf : ("./" ++ e.tag == path) = false := by
        cases hp : ("./" ++ e.tag == path : Bool)
        · rfl
        · exact absurd hp hm
      rw [hf] at h
      rw [List.find?_cons, hf]
      exact ih e0 h

/-- A show document as Jellyfin writes it (root tag `tvshow`). -/
def exShowDoc : XmlDoc :=
  { rootTag := "tvshow"
    children := [⟨"title", some "Foo"⟩, ⟨"year", some "2020"⟩, ⟨"tmdbid", some "100"⟩] }

/-- A show document whose root tag is the spec's literal `show`. -/
def exShowDocShowTag : XmlDoc :=
  { rootTag := "show"
    children := [⟨"title", some "Foo"⟩, ⟨"year", some "2020"⟩, ⟨"tmdbid", some "100"⟩] }

/-- A show document whose `tmdbid` text is not a decimal integer. -/
def exShowDocBadId : XmlDoc :=
  { rootTag := "tvshow"
    children := [⟨"title", some "Foo"⟩, ⟨"year", some "2020"⟩, ⟨"tmdbid", some "abc"⟩] }

/-- A season document with a French title. -/
def exSeasonDoc : XmlDoc :=
  { rootTag := "season"
    children := [⟨"title", some "Saison 1"⟩, ⟨"seasonnumber", some "1"⟩] }

/-- `exSeasonDoc` after its title text is overwritten with the empty string. -/
def exSeasonDocEmptyTitle : XmlDoc :=
  { rootTag := "season"
    children := [⟨"title", some ""⟩, ⟨"seasonnumber", some "1"⟩] }

/-- A second season document. -/
def exSeason2Doc : XmlDoc :=
  { rootTag := "season"
    children := [⟨"title", some "Saison 2"⟩, ⟨"seasonnumber", some "2"⟩] }

/-- A transport that authenticates successfully and resolves every season
lookup to the title `Season 1`. -/
def exTransport : HttpRequest → HttpResult := fun r =>
  if r.url = "https://api.themoviedb.org/3/authentication" then
    .ok { success := some true, name := none }
  else .ok { success := none, name := some "Season 1" }

/-- A filesystem with one show whose first season file is malformed XML and
whose second season file is valid. -/
def exFsMalformed : FS :=
  { dirs := ["/r", "/r/A", "/r/A/S1", "/r/A/S2"]
    files := ["/r/A/tvshow.nfo", "/r/A/S1/season.nfo", "/r/A/S2/season.nfo"]
    content := fun p =>
      if p = "/r/A/tvshow.nfo" then .xml "" exShowDoc []
      else if p = "/r/A/S1/season.nfo" then .malformed "not xml"
      else .xml "" exSeason2Doc [] }

/-- A filesystem with one show and one valid season file whose on-disk bytes
carry no byte-order mark and no XML declaration (an empty prolog). -/
def exFsPlain : FS :=
  { dirs := ["/r", "/r/A", "/r/A/S1"]
    files := ["/r/A/tvshow.nfo", "/r/A/S1/season.nfo"]
    content := fun p =>
      if p = "/r/A/tvshow.nfo" then .xml "" exShowDoc []
      else .xml "" exSeasonDoc [] }

/-- `exFsPlain` with the show document's root tag replaced by `show`. -/
def exFsShowTag : FS :=
  { dirs := ["/r", "/r/A", "/r/A/S1"]
    files := ["/r/A/tvshow.nfo", "/r/A/S1/season.nfo"]
    content := fun p =>
      if p = "/r/A/tvshow.nfo" then .xml "" exShowDocShowTag []
      else .xml "" exSeasonDoc [] }

/-- `exFsPlain` with the show document's `tmdbid` not a decimal integer. -/
def exFsBadId : FS :=
  { dirs := ["/r", "/r/A", "/r/A/S1"]
    files := ["/r/A/tvshow.nfo", "/r/A/S1/season.nfo"]
    content := fun p =>
      if p = "/r/A/tvshow.nfo" then .xml "" exShowDocBadId []
      else .xml "" exSeasonDoc [] }

/-- An empty filesystem. -/
def exFsEmpty : FS :=
  { dirs := ["/d"], files := [], content := fun _ => .malformed "" }

/-- The configuration used by the concrete scenarios: not a dry run, one
root `/r`. -/
def exCtx : Ctx :=
  { bearer := "B", dry_run := false, paths := ["/r"], transport := exTransport }

/-- `exCtx` with a transport whose season lookups resolve to the title the
season file already carries. -/
def exCtxSame : Ctx :=
  { bearer := "B", dry_run := false, paths := ["/r"]
    transport := fun r =>
      if r.url = "https://api.themoviedb.org/3/authentication" then
        .ok { success := some true, name := none }
      else .ok { success := none, name := some "Saison 1" } }

/-- A configuration whose transport times every request out. -/
def exCtxTimeout : Ctx :=
  { bearer := "B", dry_run := false, paths := ["/r"], transport := fun _ => .timeout }

/-- A configuration whose transport answers every request with an HTTP
error status. -/
def exCtxHttpErr : Ctx :=
  { bearer := "B", dry_run := false, paths := ["/r"], transport := fun _ => .httpError "401" }

/-- `exCtx` pointed at a root that does not exist. -/
def exCtxBadRoot : Ctx :=
  { bearer := "B", dry_run := false, paths := ["/nope"], transport := exTransport }

/-- `exCtx` pointed at an existing root containing no show files. -/
def exCtxEmptyRoot : Ctx :=
  { bearer := "B", dry_run := false, paths := ["/d"], transport := exTransport }

/-- The initial effects of a run over a filesystem. -/
def initW (fs : FS) : Effects := { fs := fs, log := [], requests := [] }

theorem string_append_cancel {p a b : String} (h : p ++ a = p ++ b) : a = b := by
  have h2 := congrArg String.data h
  simp only [String.data_append] at h2
  exact String.ext (List.append_cancel_left h2)

theorem tag_pred_false {e : XmlElem} {t : String} (h : e.tag ≠ t) :
    ("./" ++ e.tag == "./" ++ t) = false := by
  cases hp : ("./" ++ e.tag == "./" ++ t : Bool)
  · rfl
  · exact absurd (string_append_cancel (eq_of_beq hp)) h

theorem pyIntCore_error {sign : Int} {digits : List Char} {orig : String} {e : PyErr}
    (h : pyIntCore sign digits orig = .error e) : ∃ m, e = .valueError m := by
  unfold pyIntCore at h
  split at h
  · cases h
  · cases h
    exact ⟨_, rfl⟩

theorem pyInt_error {s : String} {e : PyErr} (h : pyInt s = .error e) :
    ∃ m, e = .valueError m := by
  unfold pyInt at h
  split at h <;> exact pyIntCore_error h

theorem try_auth_requests (ctx : Ctx) (w : Effects) :
    (_try_auth ctx w).1.requests = w.requests ++ [authRequest ctx.bearer] := by
  unfold _try_auth authRequest
  have hq := query_requests ctx "authentication" [] []
    (logLine w "Trying to authenticate with TMDB...")
  dsimp only
  split
  · next w1 response heq =>
    rw [heq] at hq
    split <;> exact hq
  · next w1 e heq =>
    rw [heq] at hq
    split <;> exact hq

theorem season_lookup_ok (ctx : Ctx) (sid n : Int) (lang : Option String)
    (w : Effects) (body : JsonObj)
    (h : ctx.transport (seasonRequest ctx sid n lang) = .ok body) :
    get_tv_series_season ctx sid n lang w =
      ({ w with requests := w.requests ++ [seasonRequest ctx sid n lang] }, .ok body) := by
  unfold seasonRequest at h ⊢
  unfold get_tv_series_season _query
  dsimp only
  rw [h]

theorem seasonLoop_pyInt_error (ctx : Ctx) (tmdbid lang : String) (ve : PyErr)
    (hint : pyInt tmdbid = .error ve) (hcaught : seasonCaught ve = true) :
    ∀ (seasons : List String) (w : Effects),
      seasonLoop ctx tmdbid lang seasons w =
        ({ w with log := w.log ++ seasons.map (fun s => skipSeasonLine s ve) }, .ok ()) := by
  intro seasons
  induction seasons with
  | nil =>
    intro w
    show (w, Except.ok ()) = _
    congr 1
    cases w
    simp
  | cons s rest ih =>
    intro w
    unfold seasonLoop seasonStep
    rw [hint]
    dsimp only
    rw [if_pos hcaught]
    rw [ih (logLine w (skipSeasonLine s ve))]
    congr 1
    simp [logLine]

/-- C7: for every list of valid root directories, `_find_tv_shows` and
`_find_seasons` return, per root, the `rglob` matches sorted lexicographically
by full path string, concatenated in the order the roots were given; the
sort of each per-root block is a sorted permutation of its matches, so the
same filesystem contents always yield the same output sequence. -/
theorem C7_discovery_order (fs : FS) (paths : List String)
    (h : ∀ p ∈ paths, isDir fs p = true) :
    _find_tv_shows fs paths =
        .ok (paths.flatMap (fun r => sortedStrings (rglob fs r "tvshow.nfo"))) ∧
    _find_seasons fs paths =
        .ok (paths.flatMap (fun r => sortedStrings (rglob fs r "season.nfo"))) ∧
    (∀ l : List String, List.Sorted (· ≤ ·) (sortedStrings l) ∧ (sortedStrings l).Perm l) := by
  refine ⟨?_, ?_, fun l => ⟨sortedStrings_sorted l, sortedStrings_perm l⟩⟩
  · have := findLoop_all_dirs fs "tvshow.nfo" paths [] h
    simpa [_find_tv_shows] using this
  · have := findLoop_all_dirs fs "season.nfo" paths [] h
    simpa [_find_seasons] using this

/-- Witness for C7 at a concrete filesystem: the walk matches under `/r` are
returned sorted by full path string. -/
theorem C7_discovery_order_witness :
    (∀ p ∈ ["/r"], isDir exFsMalformed p = true) ∧
    (_find_tv_shows exFsMalformed ["/r"] =
        .ok (["/r"].flatMap (fun r => sortedStrings (rglob exFsMalformed r "tvshow.nfo"))) ∧
     _find_seasons exFsMalformed ["/r"] =
        .ok (["/r"].flatMap (fun r => sortedStrings (rglob exFsMalformed r "season.nfo"))) ∧
    (∀ l : List String, List.Sorted (· ≤ ·) (sortedStrings l) ∧ (sortedStrings l).Perm l)) :=
  ⟨by decide, C7_discovery_order exFsMalformed ["/r"] (by decide)⟩

/-- C6: when any configured root path does not exist or is not a directory,
discovery fails with the invalid-root `IOError` naming an offending root and
returns no results, and the run reports exactly that one error line and ends
with the filesystem untouched, no show processed and no catalog request
issued. -/
theorem C6_fatal_root (ctx : Ctx) (fs : FS)
    (h : ∃ p, p ∈ ctx.paths ∧ isDir fs p = false) :
    ∃ bad, bad ∈ ctx.paths ∧ isDir fs bad = false ∧
      _find_tv_shows fs ctx.paths = .error (.osError (badRootMsg bad)) ∧
      run ctx fs =
        ({ fs := fs, log := ["Error: " ++ badRootMsg bad], requests := [] }, .ok ()) := by
  rcases findLoop_first_bad fs "tvshow.nfo" ctx.paths [] h with ⟨bad, hmem, hbad, heq⟩
  have heq' : _find_tv_shows fs ctx.paths = .error (.osError (badRootMsg bad)) := heq
  refine ⟨bad, hmem, hbad, heq', ?_⟩
  unfold run
  rw [heq']
  simp [isOSError, logLine, pyMsg]

/-- Witness for C6: a run over the missing root `/nope` stops with the one
reported error and issues no request. -/
theorem C6_fatal_root_witness :
    (∃ p, p ∈ exCtxBadRoot.paths ∧ isDir exFsEmpty p = false) ∧
    (∃ bad, bad ∈ exCtxBadRoot.paths ∧ isDir exFsEmpty bad = false ∧
      _find_tv_shows exFsEmpty exCtxBadRoot.paths = .error (.osError (badRootMsg bad)) ∧
      run exCtxBadRoot exFsEmpty =
        ({ fs := exFsEmpty, log := ["Error: " ++ badRootMsg bad], requests := [] }, .ok ())) :=
  ⟨⟨"/nope", by decide, by decide⟩,
   C6_fatal_root exCtxBadRoot exFsEmpty ⟨"/nope", by decide, by decide⟩⟩

/-- C9: the TMDB client is only constructed — and its one-shot
authentication check only issued — after discovery has succeeded and found
at least one show; a run whose discovery fails or finds no show issues no
catalog request at all, and in every other run the first request on the wire
is the authentication check. -/
theorem C9_no_traffic (ctx : Ctx) (fs : FS) :
    (((∃ e, _find_tv_shows fs ctx.paths = .error e) ∨
        _find_tv_shows fs ctx.paths = .ok []) →
      (run ctx fs).1.requests = []) ∧
    (∀ shows, _find_tv_shows fs ctx.paths = .ok shows → shows ≠ [] →
      ∃ rest, (run ctx fs).1.requests = authRequest ctx.bearer :: rest) := by
  constructor
  · rintro (⟨e, he⟩ | he)
    · unfold run
      rw [he]
      dsimp only
      split <;> rfl
    · unfold run
      rw [he]
      rfl
  · intro shows hs hne
    unfold run
    rw [hs]
    dsimp only
    rw [if_neg (by simp [hne])]
    have hauth := try_auth_requests ctx
      (logLine { fs := fs, log := [], requests := [] }
        ("Found " ++ toString shows.length ++ " TV show(s)"))
    rcases hA : TMDB_new ctx
        (logLine { fs := fs, log := [], requests := [] }
          ("Found " ++ toString shows.length ++ " TV show(s)")) with ⟨w2, r⟩
    have hw2 : w2.requests = [authRequest ctx.bearer] := by
      have : (TMDB_new ctx _).1.requests = _ := hauth
      rw [hA] at this
      simpa [logLine] using this
    cases r with
    | error e => exact ⟨[], hw2⟩
    | ok _ =>
      rcases showLoop_requests ctx shows.length shows 1 w2 with ⟨t, ht⟩
      exact ⟨t, by rw [ht, hw2]; rfl⟩

/-- Witness for C9 at a concrete world with an existing but empty root:
discovery succeeds with zero shows and the run issues no request. -/
theorem C9_no_traffic_witness :
    _find_tv_shows exFsEmpty exCtxEmptyRoot.paths = .ok [] ∧
    (run exCtxEmptyRoot exFsEmpty).1.requests = [] :=
  ⟨by decide, (C9_no_traffic exCtxEmptyRoot exFsEmpty).1 (Or.inr (by decide))⟩

/-- C3: for every valid season document, when the catalog's resolved title
equals the on-disk title, or when dry-run mode is set, `_fix_season` returns
normally without touching the filesystem, emitting exactly one report
line. -/
theorem C3_no_write (ctx : Ctx) (sid : Int) (language season : String)
    (w : Effects) (d : XmlDoc) (old numS : String) (n : Int) (body : JsonObj)
    (T : String)
    (hp : parseFile w.fs season = .ok d)
    (hroot : d.rootTag = "season")
    (ht : _get_xml_element_text d "./title" = some old)
    (hn : _get_xml_element_text d "./seasonnumber" = some numS)
    (hi : pyInt numS = .ok n)
    (hresp : ctx.transport (seasonRequest ctx sid n (some language)) = .ok body)
    (hname : body.name = some T)
    (hcase : old = T ∨ ctx.dry_run = true) :
    ∃ w' line, _fix_season ctx sid language season w = (w', .ok ()) ∧
      w'.fs = w.fs ∧ w'.log = w.log ++ [line] := by
  unfold _fix_season
  simp only [hp]
  rw [if_neg (by simp [hroot])]
  simp only [ht, hn, hi, season_lookup_ok ctx sid n (some language) w body hresp, hname]
  by_cases hot : old = T
  · rw [if_pos hot]
    refine ⟨_, "Season " ++ numS ++ " already has the correct title " ++ T,
      rfl, rfl, ?_⟩
    simp [logLine]
  · rw [if_neg hot]
    have hdry : ctx.dry_run = true := hcase.resolve_left hot
    simp only [hdry, if_true]
    refine ⟨_, "Fixing season " ++ numS ++ " from " ++ old ++ " to " ++ T ++ " (DRY RUN)",
      rfl, rfl, ?_⟩
    simp [logLine]

/-- Witness for C3: a season whose on-disk title already equals the resolved
title is reported and the filesystem left untouched. -/
theorem C3_no_write_witness :
    parseFile (initW exFsPlain).fs "/r/A/S1/season.nfo" = .ok exSeasonDoc ∧
    exCtxSame.transport (seasonRequest exCtxSame 100 1 (some "en")) =
      .ok { success := none, name := some "Saison 1" } ∧
    (∃ w' line,
      _fix_season exCtxSame 100 "en" "/r/A/S1/season.nfo" (initW exFsPlain) =
        (w', .ok ()) ∧
      w'.fs = (initW exFsPlain).fs ∧
      w'.log = (initW exFsPlain).log ++ [line]) :=
  ⟨by decide, by decide,
   C3_no_write exCtxSame 100 "en" "/r/A/S1/season.nfo" (initW exFsPlain) exSeasonDoc
     "Saison 1" "1" 1 { success := none, name := some "Saison 1" } "Saison 1"
     (by decide) (by decide) (by decide) (by decide) (by decide) (by decide) (by decide)
     (Or.inl rfl)⟩

theorem parseFile_ok {fs : FS} {p : String} {d : XmlDoc}
    (h : parseFile fs p = .ok d) :
    fs.files.contains p = true ∧ ∃ pr cs, fs.content p = .xml pr d cs := by
  unfold parseFile at h
  split at h
  · next hc =>
    split at h
    · cases h
    · next heq =>
      cases h
      exact ⟨hc, _, _, heq⟩
  · cases h

/-- C2 as amended: for every valid season document whose title differs from
the resolved title, with dry-run false, `_fix_season` rewrites exactly the
title field of the parsed tree and persists that tree — the re-read file
parses to the original document with only the first `./title` text replaced
(readable back unless the new title is empty, which reads as no value), the
root tag, every child's tag, every non-title child and every other file are
unchanged — but the file is re-serialized behind the fixed BOM-plus-prolog
with parse-invisible bytes (original prolog, comments) dropped rather than
preserved byte-for-byte. -/
theorem C2_exact_rewrite_amended (ctx : Ctx) (sid : Int) (language season : String)
    (w : Effects) (d : XmlDoc) (old numS : String) (n : Int) (body : JsonObj)
    (T : String)
    (hp : parseFile w.fs season = .ok d)
    (hroot : d.rootTag = "season")
    (ht : _get_xml_element_text d "./title" = some old)
    (hn : _get_xml_element_text d "./seasonnumber" = some numS)
    (hi : pyInt numS = .ok n)
    (hresp : ctx.transport (seasonRequest ctx sid n (some language)) = .ok body)
    (hname : body.name = some T)
    (hdiff : old ≠ T)
    (hdry : ctx.dry_run = false) :
    ∃ w' d',
      _set_xml_element_text d "./title" T = .ok d' ∧
      _fix_season ctx sid language season w = (w', .ok ()) ∧
      w'.fs.content season = FileContent.xml XML_PROLOG d' [] ∧
      parseFile w'.fs season = .ok d' ∧
      _get_xml_element_text d' "./title" = (if T = "" then none else some T) ∧
      d'.rootTag = d.rootTag ∧
      (∀ k, (d'.children.get? k).map XmlElem.tag = (d.children.get? k).map XmlElem.tag) ∧
      (∀ k e, d.children.get? k = some e → e.tag ≠ "title" →
        d'.children.get? k = some e) ∧
      (∀ q, q ≠ season → w'.fs.content q = w.fs.content q) ∧
      w'.log = w.log ++ ["Fixing season " ++ numS ++ " from " ++ old ++ " to " ++ T] := by
  have hfind : ∃ e0, findChild d "./title" = some e0 := by
    unfold _get_xml_element_text at ht
    rcases hfc : findChild d "./title" with _ | e0
    · rw [hfc] at ht; cases ht
    · exact ⟨e0, rfl⟩
  rcases hfind with ⟨e0, hfc⟩
  have hcontains := (parseFile_ok hp).1
  have hset : _set_xml_element_text d "./title" T =
      .ok { d with children := setFirstChild d.children "./title" T } := by
    unfold _set_xml_element_text
    rw [hfc]
  unfold _fix_season
  simp only [hp]
  rw [if_neg (by simp [hroot])]
  simp only [ht, hn, hi, season_lookup_ok ctx sid n (some language) w body hresp, hname]
  rw [if_neg (fun hc => hdiff hc)]
  simp only [hdry, Bool.false_eq_true, if_false, String.append_empty]
  simp only [hset]
  refine ⟨_, _, rfl, rfl, by simp [writeFile], ?_, ?_, rfl,
    (fun k => setFirstChild_tag "./title" T d.children k),
    (fun k e hk hne => setFirstChild_nomatch "./title" T d.children k e hk
      (tag_pred_false hne)),
    (fun q hq => by simp [writeFile, logLine, hq]), by simp [writeFile, logLine]⟩
  · unfold parseFile
    have hmem : season ∈ w.fs.files := by simpa using hcontains
    simp [writeFile, logLine, hcontains, hmem]
  · have hfd' := find?_setFirstChild_self "./title" T d.children e0 hfc
    unfold _get_xml_element_text findChild
    dsimp only
    rw [hfd']
    by_cases hT : T = ""
    · subst hT
      simp
    · simp [hT]

/-- Counterexample to C2 as stated: a valid season file stored without a
byte-order mark or XML declaration (an empty prolog) is rewritten on a title
mismatch, and the resulting file is not the original file with only the
title text replaced — the writer substitutes its own fixed BOM-plus-prolog,
so a part of the document other than the title text changed. -/
theorem C2_exact_rewrite_counterexample :
    (_fix_season exCtx 100 "en" "/r/A/S1/season.nfo" (initW exFsPlain)).2 = .ok () ∧
    exCtx.dry_run = false ∧
    _get_xml_element_text exSeasonDoc "./title" = some "Saison 1" ∧
    ("Saison 1" : String) ≠ "Season 1" ∧
    (_fix_season exCtx 100 "en" "/r/A/S1/season.nfo" (initW exFsPlain)).1.fs.content
        "/r/A/S1/season.nfo" ≠
      specReplaceTitleText (exFsPlain.content "/r/A/S1/season.nfo") "Season 1" :=
  ⟨by decide, rfl, by decide, by decide, by decide⟩

/-- Witness for the amended C2 at the same concrete world: the rewrite
persists the parsed tree with title `Season 1` behind the fixed prolog. -/
theorem C2_exact_rewrite_witness :
    parseFile (initW exFsPlain).fs "/r/A/S1/season.nfo" = .ok exSeasonDoc ∧
    exCtx.transport (seasonRequest exCtx 100 1 (some "en")) =
      .ok { success := none, name := some "Season 1" } ∧
    (∃ w' d',
      _set_xml_element_text exSeasonDoc "./title" "Season 1" = .ok d' ∧
      _fix_season exCtx 100 "en" "/r/A/S1/season.nfo" (initW exFsPlain) = (w', .ok ()) ∧
      w'.fs.content "/r/A/S1/season.nfo" = FileContent.xml XML_PROLOG d' [] ∧
      parseFile w'.fs "/r/A/S1/season.nfo" = .ok d' ∧
      _get_xml_element_text d' "./title" =
        (if ("Season 1" : String) = "" then none else some "Season 1") ∧
      d'.rootTag = exSeasonDoc.rootTag ∧
      (∀ k, (d'.children.get? k).map XmlElem.tag =
        (exSeasonDoc.children.get? k).map XmlElem.tag) ∧
      (∀ k e, exSeasonDoc.children.get? k = some e → e.tag ≠ "title" →
        d'.children.get? k = some e) ∧
      (∀ q, q ≠ "/r/A/S1/season.nfo" →
        w'.fs.content q = (initW exFsPlain).fs.content q) ∧
      w'.log = (initW exFsPlain).log ++
        ["Fixing season " ++ "1" ++ " from " ++ "Saison 1" ++ " to " ++ "Season 1"]) :=
  ⟨by decide, by decide,
   C2_exact_rewrite_amended exCtx 100 "en" "/r/A/S1/season.nfo" (initW exFsPlain)
     exSeasonDoc "Saison 1" "1" 1 { success := none, name := some "Season 1" }
     "Season 1" (by decide) (by decide) (by decide) (by decide) (by decide)
     (by decide) (by decide) (by decide) rfl⟩

theorem writeFile_contains (w : Effects) (p : String) (c : FileContent) :
    ((writeFile w p c).fs.files.contains p) = true := by
  unfold writeFile
  dsimp only
  split
  · assumption
  · simp

/-- C8 as amended: parsing a season document, writing a nonempty replacement
string into its title field, persisting, and re-parsing yields the
replacement as the title value and leaves the season-number value unchanged;
for the empty replacement string the re-read title reads back as no value,
because the reader treats empty text as absent. -/
theorem C8_roundtrip_amended (w : Effects) (p : String) (d d' : XmlDoc) (T : String)
    (hT : T ≠ "")
    (hset : _set_xml_element_text d "./title" T = .ok d') :
    parseFile (writeFile w p (FileContent.xml XML_PROLOG d' [])).fs p = .ok d' ∧
    _get_xml_element_text d' "./title" = some T ∧
    _get_xml_element_text d' "./seasonnumber" = _get_xml_element_text d "./seasonnumber" := by
  have hfind : ∃ e0, findChild d "./title" = some e0 := by
    unfold _set_xml_element_text at hset
    rcases hfc : findChild d "./title" with _ | e0
    · rw [hfc] at hset; cases hset
    · exact ⟨e0, rfl⟩
  rcases hfind with ⟨e0, hfc⟩
  have hd' : d' = { d with children := setFirstChild d.children "./title" T } := by
    unfold _set_xml_element_text at hset
    rw [hfc] at hset
    cases hset
    rfl
  subst hd'
  refine ⟨?_, ?_, ?_⟩
  · unfold parseFile
    rw [writeFile_contains]
    simp [writeFile]
  · have hfd' := find?_setFirstChild_self "./title" T d.children e0 hfc
    unfold _get_xml_element_text findChild
    dsimp only
    rw [hfd']
    simp [hT]
  · unfold _get_xml_element_text findChild
    dsimp only
    rw [find?_setFirstChild_ne "./title" "./seasonnumber" T (by decide) d.children]

/-- Counterexample to C8 as stated: writing the empty string as the
replacement title and re-parsing does not yield a title equal to the
replacement — the round-tripped title reads back as absent. -/
theorem C8_roundtrip_counterexample :
    _set_xml_element_text exSeasonDoc "./title" "" = .ok exSeasonDocEmptyTitle ∧
    parseFile (writeFile (initW exFsPlain) "/r/A/S1/season.nfo"
        (FileContent.xml XML_PROLOG exSeasonDocEmptyTitle [])).fs "/r/A/S1/season.nfo" =
      .ok exSeasonDocEmptyTitle ∧
    _get_xml_element_text exSeasonDocEmptyTitle "./title" = none ∧
    _get_xml_element_text exSeasonDocEmptyTitle "./title" ≠ some "" :=
  ⟨by decide, by decide, by decide, by decide⟩

/-- Witness for the amended C8 at a concrete document and replacement. -/
theorem C8_roundtrip_witness :
    ("New Title" : String) ≠ "" ∧
    _set_xml_element_text exSeasonDoc "./title" "New Title" =
      .ok { rootTag := "season"
            children := [⟨"title", some "New Title"⟩, ⟨"seasonnumber", some "1"⟩] } ∧
    (parseFile (writeFile (initW exFsPlain) "/r/A/S1/season.nfo"
        (FileContent.xml XML_PROLOG
          { rootTag := "season"
            children := [⟨"title", some "New Title"⟩, ⟨"seasonnumber", some "1"⟩] }
          [])).fs "/r/A/S1/season.nfo" =
      .ok { rootTag := "season"
            children := [⟨"title", some "New Title"⟩, ⟨"seasonnumber", some "1"⟩] } ∧
    _get_xml_element_text
      { rootTag := "season"
        children := [⟨"title", some "New Title"⟩, ⟨"seasonnumber", some "1"⟩] }
      "./title" = some "New Title" ∧
    _get_xml_element_text
      { rootTag := "season"
        children := [⟨"title", some "New Title"⟩, ⟨"seasonnumber", some "1"⟩] }
      "./seasonnumber" = _get_xml_element_text exSeasonDoc "./seasonnumber") :=
  ⟨by decide, by decide,
   C8_roundtrip_amended (initW exFsPlain) "/r/A/S1/season.nfo" exSeasonDoc
     { rootTag := "season"
       children := [⟨"title", some "New Title"⟩, ⟨"seasonnumber", some "1"⟩] }
     "New Title" (by decide) (by decide)⟩

/-- C4 as amended: for every parsed show document, root-tag validation
succeeds exactly when the root tag equals `tvshow` (not the spec's `show`):
any other root tag — including `show` itself — makes `_fix_show` fail
immediately with the shape `AttributeError`, which the show loop catches so
the show is skipped; and when the root tag is `tvshow` that shape error can
never be the outcome. -/
theorem C4_root_tag_amended (ctx : Ctx) (p : String) (w : Effects) (d : XmlDoc)
    (hp : parseFile w.fs p = .ok d) :
    (d.rootTag ≠ "tvshow" →
      _fix_show ctx p w = (w, .error (.attributeError SHOW_SHAPE_MSG)) ∧
      showCaught (.attributeError SHOW_SHAPE_MSG) = true) ∧
    (d.rootTag = "tvshow" →
      ∀ w', _fix_show ctx p w ≠ (w', .error (.attributeError SHOW_SHAPE_MSG))) := by
  constructor
  · intro hne
    constructor
    · unfold _fix_show
      simp only [hp]
      rw [if_pos hne]
    · rfl
  · intro hroot w' hcontra
    exact fix_show_shape_error_root ctx p w w' d hp hcontra hroot

/-- Counterexample to C4 as stated: a metadata file whose document root tag
is the spec's literal `show` fails validation — the code accepts only
`tvshow` — so validation does not succeed exactly on root tag `show`. -/
theorem C4_root_tag_counterexample :
    parseFile (initW exFsShowTag).fs "/r/A/tvshow.nfo" = .ok exShowDocShowTag ∧
    exShowDocShowTag.rootTag = "show" ∧
    _fix_show exCtx "/r/A/tvshow.nfo" (initW exFsShowTag) =
      ((initW exFsShowTag), .error (.attributeError SHOW_SHAPE_MSG)) :=
  ⟨by decide, rfl, rfl⟩

/-- Witness for the amended C4 at a concrete parsed document whose root tag
is `show`. -/
theorem C4_root_tag_witness :
    parseFile (initW exFsShowTag).fs "/r/A/tvshow.nfo" = .ok exShowDocShowTag ∧
    ((exShowDocShowTag.rootTag ≠ "tvshow" →
      _fix_show exCtx "/r/A/tvshow.nfo" (initW exFsShowTag) =
        ((initW exFsShowTag), .error (.attributeError SHOW_SHAPE_MSG)) ∧
      showCaught (.attributeError SHOW_SHAPE_MSG) = true) ∧
    (exShowDocShowTag.rootTag = "tvshow" →
      ∀ w', _fix_show exCtx "/r/A/tvshow.nfo" (initW exFsShowTag) ≠
        (w', .error (.attributeError SHOW_SHAPE_MSG)))) :=
  ⟨by decide,
   C4_root_tag_amended exCtx "/r/A/tvshow.nfo" (initW exFsShowTag) exShowDocShowTag
     (by decide)⟩

/-- C5 as amended: every catalog request is issued with the fixed timeout of
5 time units, but a timed-out request is not mapped to the same error kind
as an HTTP error status: it propagates as the transport `Timeout` exception
(an `OSError`, not a `RuntimeError`).  For a season lookup that error is
still caught by the season loop, so the season is skipped; for the
authentication check it propagates out of the client constructor just as the
authentication `RuntimeError` would, aborting the run. -/
theorem C5_timeout_amended (ctx : Ctx) :
    (∀ (ep : String) (pp : List String) (qp : List (String × String)) (w : Effects),
      (_query ctx ep pp qp w).1.requests =
        w.requests ++ [buildRequest ctx.bearer ep pp qp] ∧
      (buildRequest ctx.bearer ep pp qp).timeoutSecs = REQUEST_TIMEOUT) ∧
    (∀ (sid n : Int) (lang : Option String) (w : Effects),
      ctx.transport (seasonRequest ctx sid n lang) = .timeout →
      (get_tv_series_season ctx sid n lang w).2 =
        .error (.timeoutError "Request timed out") ∧
      seasonCaught (.timeoutError "Request timed out") = true ∧
      isRuntimeError (.timeoutError "Request timed out") = false ∧
      isOSError (.timeoutError "Request timed out") = true) ∧
    (∀ w : Effects,
      ctx.transport (authRequest ctx.bearer) = .timeout →
      (_try_auth ctx w).2 = .error (.timeoutError "Request timed out") ∧
      isRuntimeError (.timeoutError "Request timed out") = false) := by
  refine ⟨fun ep pp qp w => ⟨query_requests ctx ep pp qp w, rfl⟩, ?_, ?_⟩
  · intro sid n lang w h
    refine ⟨?_, rfl, rfl, rfl⟩
    unfold seasonRequest at h
    unfold get_tv_series_season _query
    dsimp only
    rw [h]
    rfl
  · intro w h
    refine ⟨?_, rfl⟩
    unfold authRequest at h
    unfold _try_auth _query
    dsimp only
    rw [h]
    rfl

/-- Counterexample to C5 as stated: with a transport that times out, the
authentication check fails with the `Timeout` transport exception while an
HTTP error status fails with the wrapping `RuntimeError`, and likewise for
the season lookup — the timeout is not mapped to the same error kind as an
HTTP error. -/
theorem C5_timeout_counterexample :
    (_try_auth exCtxTimeout (initW exFsEmpty)).2 =
      .error (.timeoutError "Request timed out") ∧
    (_try_auth exCtxHttpErr (initW exFsEmpty)).2 =
      .error (.runtimeError ("Failed to authenticate with TMDB: " ++ "401")) ∧
    (get_tv_series_season exCtxTimeout 100 1 (some "en") (initW exFsEmpty)).2 =
      .error (.timeoutError "Request timed out") ∧
    (get_tv_series_season exCtxHttpErr 100 1 (some "en") (initW exFsEmpty)).2 =
      .error (.runtimeError ("Failed to get season: " ++ "401")) ∧
    PyErr.timeoutError "Request timed out" ≠
      .runtimeError ("Failed to authenticate with TMDB: " ++ "401") ∧
    PyErr.timeoutError "Request timed out" ≠
      .runtimeError ("Failed to get season: " ++ "401") :=
  ⟨by decide, by decide, by decide, by decide, by decide, by decide⟩

/-- Witness for the amended C5 with the timing-out transport. -/
theorem C5_timeout_witness :
    ((_query exCtxTimeout "authentication" [] [] (initW exFsEmpty)).1.requests =
        (initW exFsEmpty).requests ++
          [buildRequest exCtxTimeout.bearer "authentication" [] []] ∧
      (buildRequest exCtxTimeout.bearer "authentication" [] []).timeoutSecs =
        REQUEST_TIMEOUT) ∧
    exCtxTimeout.transport (seasonRequest exCtxTimeout 100 1 (some "en")) = .timeout ∧
    ((get_tv_series_season exCtxTimeout 100 1 (some "en") (initW exFsEmpty)).2 =
        .error (.timeoutError "Request timed out") ∧
      seasonCaught (.timeoutError "Request timed out") = true ∧
      isRuntimeError (.timeoutError "Request timed out") = false ∧
      isOSError (.timeoutError "Request timed out") = true) ∧
    exCtxTimeout.transport (authRequest exCtxTimeout.bearer) = .timeout ∧
    ((_try_auth exCtxTimeout (initW exFsEmpty)).2 =
        .error (.timeoutError "Request timed out") ∧
      isRuntimeError (.timeoutError "Request timed out") = false) :=
  ⟨(C5_timeout_amended exCtxTimeout).1 "authentication" [] [] (initW exFsEmpty),
   rfl,
   (C5_timeout_amended exCtxTimeout).2.1 100 1 (some "en") (initW exFsEmpty) rfl,
   rfl,
   (C5_timeout_amended exCtxTimeout).2.2 (initW exFsEmpty) rfl⟩

/-- C10: a show document whose `tmdbid` text is present but not a decimal
integer passes show loading — the banner is printed and its seasons are
discovered — and the `int` conversion then fails separately inside each
season iteration, so every season of the show is reported skipped while the
show body returns normally, leaving sibling shows and the run to continue;
no file is modified and no catalog request is issued. -/
theorem C10_bad_tmdbid (ctx : Ctx) (showPath : String) (w : Effects) (d : XmlDoc)
    (title year tmdbid : String) (ve : PyErr) (seasons : List String)
    (hp : parseFile w.fs showPath = .ok d)
    (hroot : d.rootTag = "tvshow")
    (ht : _get_xml_element_text d "./title" = some title)
    (hy : _get_xml_element_text d "./year" = some year)
    (hid : _get_xml_element_text d "./tmdbid" = some tmdbid)
    (hint : pyInt tmdbid = .error ve)
    (hs : _find_seasons w.fs [parentDir showPath] = .ok seasons)
    (hne : seasons ≠ []) :
    _fix_show ctx showPath w =
      ({ w with log := w.log ++
          showBanner title year tmdbid ((_get_xml_element_text d "./language").getD "en") ::
            seasons.map (fun s => skipSeasonLine s ve) },
        .ok ()) := by
  have hcaught : seasonCaught ve = true := by
    rcases pyInt_error hint with ⟨m, hm⟩
    rw [hm]
    rfl
  unfold _fix_show
  simp only [hp]
  rw [if_neg (by simp [hroot])]
  simp only [ht, hy, hid]
  rw [(show _find_seasons
      (logLine w (showBanner title year tmdbid
        ((_get_xml_element_text d "./language").getD "en"))).fs
      [parentDir showPath] = Except.ok seasons from hs)]
  dsimp only
  rw [if_neg (by simp [hne])]
  rw [seasonLoop_pyInt_error ctx tmdbid _ ve hint hcaught seasons _]
  congr 1
  simp [logLine]

/-- Witness for C10: the show with `tmdbid` text `abc` is loaded and
reported, and its one season is reported skipped with the `ValueError`. -/
theorem C10_bad_tmdbid_witness :
    parseFile (initW exFsBadId).fs "/r/A/tvshow.nfo" = .ok exShowDocBadId ∧
    pyInt "abc" = .error (.valueError ("invalid literal for int with base 10: " ++ "abc")) ∧
    _find_seasons (initW exFsBadId).fs [parentDir "/r/A/tvshow.nfo"] =
      .ok ["/r/A/S1/season.nfo"] ∧
    _fix_show exCtx "/r/A/tvshow.nfo" (initW exFsBadId) =
      ({ fs := (initW exFsBadId).fs
         log := (initW exFsBadId).log ++
           showBanner "Foo" "2020" "abc"
               ((_get_xml_element_text exShowDocBadId "./language").getD "en") ::
             ["/r/A/S1/season.nfo"].map (fun s => skipSeasonLine s
               (.valueError ("invalid literal for int with base 10: " ++ "abc")))
         requests := (initW exFsBadId).requests },
        .ok ()) :=
  ⟨by decide, by decide, by decide,
   C10_bad_tmdbid exCtx "/r/A/tvshow.nfo" (initW exFsBadId) exShowDocBadId
     "Foo" "2020" "abc" (.valueError ("invalid literal for int with base 10: " ++ "abc"))
     ["/r/A/S1/season.nfo"]
     (by decide) (by decide) (by decide) (by decide) (by decide) (by decide) (by decide)
     (by decide)⟩

/-- C1 as amended: per-item failure isolation holds for every error except a
document parse error.  The season loop's handler catches exactly the
non-parse error kinds, and on any such error the loop reports the season's
directory name and continues with the remaining seasons; every non-parse
error escaping `_fix_show` is caught by the show loop's handler, which
reports it and continues with the remaining shows.  A parse error raised for
a malformed document is caught by neither handler and terminates the run
(see the counterexample). -/
theorem C1_isolation_amended :
    (∀ e : PyErr, seasonCaught e = !isParseError e) ∧
    (∀ (ctx : Ctx) (tmdbid lang s : String) (rest : List String) (w w' : Effects)
      (e : PyErr),
      seasonStep ctx tmdbid lang s w = (w', .error e) → isParseError e = false →
      seasonLoop ctx tmdbid lang (s :: rest) w =
        seasonLoop ctx tmdbid lang rest (logLine w' (skipSeasonLine s e))) ∧
    (∀ (ctx : Ctx) (p : String) (w w' : Effects) (e : PyErr),
      _fix_show ctx p w = (w', .error e) → isParseError e = false →
      showCaught e = true) ∧
    (∀ (ctx : Ctx) (total index : Nat) (p : String) (rest : List String)
      (w w' : Effects) (e : PyErr),
      _fix_show ctx p (showHeader total index p w) = (w', .error e) →
      showCaught e = true →
      showLoop ctx total index (p :: rest) w =
        showLoop ctx total (index + 1) rest
          (logLine w' ("Skipping: " ++ pyMsg e))) := by
  refine ⟨seasonCaught_eq_not_isParse, ?_, ?_, ?_⟩
  · intro ctx tid lang s rest w w' e h hip
    have hc : seasonCaught e = true := by
      rw [seasonCaught_eq_not_isParse, hip]
      rfl
    conv_lhs => unfold seasonLoop
    simp only [h]
    rw [if_pos hc]
  · intro ctx p w w' e h hip
    cases hsc : showCaught e
    · rw [fix_show_uncaught_isParse ctx p w w' e h hsc] at hip
      cases hip
    · rfl
  · intro ctx total index p rest w w' e h hc
    conv_lhs => unfold showLoop
    simp only [h]
    rw [if_pos hc]

/-- Counterexample to C1 as stated: with a show whose first season file is
malformed XML and whose second season file is valid, the parse error raised
while processing the first season is caught by neither the season loop nor
the show loop — the run terminates with the uncaught parse error and the
second season is never processed. -/
theorem C1_isolation_counterexample :
    _find_seasons exFsMalformed ["/r/A"] =
      .ok ["/r/A/S1/season.nfo", "/r/A/S2/season.nfo"] ∧
    exFsMalformed.content "/r/A/S1/season.nfo" = .malformed "not xml" ∧
    (run exCtx exFsMalformed).2 = .error (.parseError "syntax error") :=
  ⟨by decide, by decide, by decide⟩

/-- Witness for the amended C1: a season whose file is missing raises an
I/O error, which the season loop catches, reports with the season's
directory name, and continues past. -/
theorem C1_isolation_witness :
    seasonStep exCtx "100" "en" "/r/A/S3/season.nfo" (initW exFsMalformed) =
      ((initW exFsMalformed),
        .error (.osError ("No such file or directory: " ++ "/r/A/S3/season.nfo"))) ∧
    isParseError (.osError ("No such file or directory: " ++ "/r/A/S3/season.nfo")) =
      false ∧
    seasonLoop exCtx "100" "en" ["/r/A/S3/season.nfo", "/r/A/S2/season.nfo"]
        (initW exFsMalformed) =
      seasonLoop exCtx "100" "en" ["/r/A/S2/season.nfo"]
        (logLine (initW exFsMalformed)
          (skipSeasonLine "/r/A/S3/season.nfo"
            (.osError ("No such file or directory: " ++ "/r/A/S3/season.nfo")))) :=
  ⟨rfl, rfl,
   C1_isolation_amended.2.1 exCtx "100" "en" "/r/A/S3/season.nfo"
     ["/r/A/S2/season.nfo"] (initW exFsMalformed) (initW exFsMalformed)
     (.osError ("No such file or directory: " ++ "/r/A/S3/season.nfo")) rfl rfl⟩
